import Mathlib

/-!
# Shallow embedding of `bitcore-wallet-client` (`src/lib/api.js`)

This file embeds the client-side trust and coordination layer of the
multi-signature wallet client as pure Lean functions and proves the testable
properties about it.  Stateful methods of the `API` object are embedded as
explicit state-passing functions; network round trips are embedded by passing
the server's response as an explicit argument; JavaScript exceptions and
callback errors become `Except`/explicit error results.

Cryptographic primitives (`bitcore-wallet-utils`, `sjcl`, `bitcore`) are
external collaborators of this repository; they are abstracted as a record of
functions (`CryptoProvider`), matching the spec's CryptoProvider contract.
`credentials.js` and `verifier.js` belong to this repository but are not part
of the given sources; the definitions that embed them are modelled from the
spec and marked as such in their doc comments.
-/

set_option autoImplicit false

deriving instance DecidableEq for Except

/-- Errors surfaced by the API layer: callback errors / thrown `Error`s
(`err`), `ServerCompromisedError` (trust violation), `$.checkState` /
`$.checkArgument` precondition failures, and the raw exception object thrown
by `sjcl.decrypt` which `import` re-throws unchanged. -/
inductive ApiError where
  | err (msg : String)
  | serverCompromised (msg : String)
  | preconditionFailed
  | sjclError
deriving Repr, DecidableEq

/-- Result of decrypting and JSON-parsing an air-gapped public-key-ring
payload: `JSON.parse(WalletUtils.decryptMessage(...))` either throws
(no `PkrPayload` at all, i.e. `none`), parses to something that is not an
array (`notArray`), or parses to an array of extended public keys. -/
inductive PkrPayload where
  | notArray
  | arr (ring : List String)
deriving Repr, DecidableEq

/-- An accept/reject action attached to a transaction proposal; `comment`
is encrypted on the wire and decrypted in place by `_processTxps`. -/
structure TxpAction where
  copayerId : String
  comment : Option String
deriving Repr, DecidableEq

/-- A transaction proposal.  On the wire `message` holds the encrypted
message (or is null); `_processTxps` moves the wire form into
`encryptedMessage` and replaces `message` with the decrypted view. -/
structure Txp where
  id : String
  creatorId : String
  toAddress : String
  amount : Int
  message : Option String
  encryptedMessage : Option String
  proposalSignature : String
  signatures : Option (List String)
  actions : List TxpAction
deriving Repr, DecidableEq

/-- The external cryptographic collaborators (`bitcore-wallet-utils`,
`bitcore`, `sjcl`), abstracted per the spec's CryptoProvider contract: pure
signing, verification, symmetric encryption/decryption (decryption may fail),
proposal hashing, secret encoding and transaction signing.  `decryptPkr` is
the composition `JSON.parse ∘ decryptMessage` used on air-gapped key-ring
payloads, `encryptPkr` the composition `encryptMessage ∘ JSON.stringify`. -/
structure CryptoProvider where
  signMessage : String → String → String
  verifyMessage : String → String → String → Bool
  encryptMessage : String → String → String
  decryptMessage : String → String → Option String
  getProposalHash : String → Int → Option String → String
  toSecret : String → String → String → String
  signTxp : Txp → String → List String
  copayerIdFromXPub : String → String
  requestPubKeyFromXPub : String → String
  privateKeyToAESKey : String → String
  privToPub : String → String
  encryptPkr : List String → String → String
  decryptPkr : String → String → Option PkrPayload

/-- The client's credential set (`credentials.js` record).  Optional fields
model fields that may be `undefined` in JavaScript; in particular `xPrivKey`
is absent for "no-sign" credentials and `walletId` is absent before wallet
info is known. -/
structure Credentials where
  network : String
  xPrivKey : Option String
  xPubKey : String
  requestPrivKey : String
  personalEncryptingKey : String
  sharedEncryptingKey : String
  walletPrivKey : Option String
  walletId : Option String
  walletName : Option String
  m : Nat
  n : Nat
  copayerId : String
  copayerName : Option String
  publicKeyRing : List String
deriving Repr, DecidableEq

/-- The field-reduced ("compressed") export form of a credential set.
Modelled from the spec: `exportCompressed` (credentials.js, not under `src/`)
"optionally elides non-essential fields"; the fields it elides are exactly
the server-side ones named by the TODO in `api.js` line 218:
`walletId`, `walletName`, `copayerName`. -/
structure CompressedCred where
  network : String
  xPrivKey : Option String
  xPubKey : String
  requestPrivKey : String
  personalEncryptingKey : String
  sharedEncryptingKey : String
  walletPrivKey : Option String
  m : Nat
  n : Nat
  copayerId : String
  publicKeyRing : List String
deriving Repr, DecidableEq

/-- A copayer entry of the server's wallet projection. -/
structure Copayer where
  id : String
  name : String
  xPubKey : String
  xPubKeySignature : String
deriving Repr, DecidableEq

/-- The server's wallet projection. -/
structure Wallet where
  id : String
  name : String
  m : Nat
  n : Nat
  status : String
  copayers : List Copayer
deriving Repr, DecidableEq

/-- The mutable state of an `API` object: its (possibly absent) credentials. -/
structure APIState where
  credentials : Option Credentials
deriving Repr, DecidableEq

/-- `Credentials.prototype.canSign`.  Modelled from the spec: true exactly
when the signing private key is present (`canSign() ⇔ signing private key
present`; export with `noSign` removes `xPrivKey` and yields credentials
that cannot sign). -/
def Credentials.canSign (c : Credentials) : Bool :=
  c.xPrivKey.isSome

/-- `Credentials.prototype.hasWalletInfo`.  Modelled from the spec: wallet
metadata has been set. -/
def Credentials.hasWalletInfo (c : Credentials) : Bool :=
  c.walletId.isSome

/-- `Credentials.prototype.isComplete`.  Modelled from the spec:
`isComplete() ⇔ ring size == n ∧ wallet metadata set`. -/
def Credentials.isComplete (c : Credentials) : Bool :=
  c.walletId.isSome && c.publicKeyRing.length == c.n

/-- `Credentials.prototype.addPublicKeyRing`.  Modelled from the spec:
"extends ring" keeping the public key ring a set of unique keys. -/
def Credentials.addPublicKeyRing (c : Credentials) (xpubs : List String) : Credentials :=
  { c with publicKeyRing :=
      xpubs.foldl (fun r x => if r.contains x then r else r ++ [x]) c.publicKeyRing }

/-- `Credentials.prototype.addWalletInfo`.  Modelled from the spec: "sets
wallet-level fields exactly once per wallet binding; computes
`sharedEncryptingKey` from wallet-level key material" (when a wallet private
key is supplied; `openWallet` passes null and leaves the key material as is). -/
def Credentials.addWalletInfo (cp : CryptoProvider) (c : Credentials)
    (walletId walletName : String) (m n : Nat) (walletPrivKey : Option String)
    (copayerName : String) : Credentials :=
  { c with
    walletId := some walletId
    walletName := some walletName
    m := m
    n := n
    walletPrivKey := walletPrivKey.orElse (fun _ => c.walletPrivKey)
    sharedEncryptingKey :=
      match walletPrivKey with
      | some k => cp.privateKeyToAESKey k
      | none => c.sharedEncryptingKey
    copayerName := some copayerName }

/-- `Credentials.create(network)`.  Modelled from the spec: generates fresh
identity key material for the given network; the randomness is supplied
explicitly as `seed`. -/
def Credentials.create (network : String) (seed : Credentials) : Credentials :=
  { seed with network := network }

/-- JavaScript's `a || b` on nullable strings: `a` unless it is null or the
empty string (both falsy). -/
def jsOrStr (a b : Option String) : Option String :=
  match a with
  | some s => if s = "" then b else some s
  | none => b

/-- `Verifier.checkCopayers`.  Modelled from the spec (verifier.js is not
under `src/`): "recomputes each claimed copayer's membership proof from the
locally-held wallet-level private key and compares" — each copayer's
`xPubKeySignature` must verify over its `xPubKey` under the wallet-level
public key. -/
def Verifier.checkCopayers (cp : CryptoProvider) (c : Credentials)
    (copayers : List Copayer) : Bool :=
  match c.walletPrivKey with
  | none => false
  | some k =>
      let walletPubKey := cp.privToPub k
      copayers.all (fun cop => cp.verifyMessage cop.xPubKey cop.xPubKeySignature walletPubKey)

/-- `Verifier.checkTxProposal`.  Modelled from the spec (verifier.js is not
under `src/`): "recomputes the proposal hash from (destination, amount,
message) and verifies `proposalSignature` against the creator's public key
looked up in the ring by creatorId".  The hash is taken over the wire form of
the message (`encryptedMessage`, falling back to `message`), matching the
hash that `sendTxProposal` (in `src/`) signs, which is over the encrypted
message. -/
def Verifier.checkTxProposal (cp : CryptoProvider) (c : Credentials) (txp : Txp) : Bool :=
  match c.publicKeyRing.find? (fun xpub => cp.copayerIdFromXPub xpub == txp.creatorId) with
  | none => false
  | some xpub =>
      let hash := cp.getProposalHash txp.toAddress txp.amount
        (jsOrStr txp.encryptedMessage txp.message)
      cp.verifyMessage hash txp.proposalSignature (cp.requestPubKeyFromXPub xpub)

/-- `API._encryptMessage` (`api.js` 55-58): a falsy (absent or empty) message
encrypts to null, otherwise to `WalletUtils.encryptMessage`. -/
def API.encryptMessage (cp : CryptoProvider) (message : Option String)
    (encryptingKey : String) : Option String :=
  match message with
  | none => none
  | some s => if s = "" then none else some (cp.encryptMessage s encryptingKey)

/-- `API._decryptMessage` (`api.js` 68-75): a falsy (absent or empty) message
decrypts to the empty string; a decryption failure is caught and replaced by
the placeholder `<ECANNOTDECRYPT>`. -/
def API.decryptMessage (cp : CryptoProvider) (message : Option String)
    (encryptingKey : String) : String :=
  match message with
  | none => ""
  | some s =>
      if s = "" then ""
      else
        match cp.decryptMessage s encryptingKey with
        | some plain => plain
        | none => "<ECANNOTDECRYPT>"

/-- One step of `API._processTxps` (`api.js` 85-94): saves the wire message
into `encryptedMessage`, replaces `message` by its decrypted view and
decrypts every action comment in place. -/
def API.processTxp (cp : CryptoProvider) (encryptingKey : String) (txp : Txp) : Txp :=
  { txp with
    encryptedMessage := txp.message
    message := some (API.decryptMessage cp txp.message encryptingKey)
    actions := txp.actions.map (fun a =>
      { a with comment := some (API.decryptMessage cp a.comment encryptingKey) }) }

/-- `API._processTxps` (`api.js` 85-94) over a list of proposals. -/
def API.processTxps (cp : CryptoProvider) (encryptingKey : String)
    (txps : List Txp) : List Txp :=
  txps.map (API.processTxp cp encryptingKey)

/-- Options of `API.prototype.export` (`api.js` 168). -/
structure ExportOpts where
  compressed : Bool
  password : Option String
  noSign : Bool
deriving Repr, DecidableEq

/-- Options of `API.prototype.import` (`api.js` 201). -/
structure ImportOpts where
  compressed : Bool
  password : Option String
deriving Repr, DecidableEq

/-- The serialized credential document produced by `export`, symbolically:
`full` is `JSON.stringify(cred.toObj())`, `compressed` is
`cred.exportCompressed()`, `encrypted` is `sjcl.encrypt(password, inner)`,
and `garbage` stands for any other (malformed) payload string. -/
inductive ExportDoc where
  | full (c : Credentials)
  | compressed (c : CompressedCred)
  | encrypted (password : String) (inner : ExportDoc)
  | garbage (s : String)
deriving Repr, DecidableEq

/-- Whether the signing private key is present anywhere in an export
document. -/
def ExportDoc.hasSigningKey : ExportDoc → Bool
  | .full c => c.xPrivKey.isSome
  | .compressed c => c.xPrivKey.isSome
  | .encrypted _ inner => inner.hasSigningKey
  | .garbage _ => false

/-- `Credentials.prototype.exportCompressed`.  Modelled from the spec:
serializes every field except the elided server-side ones (`walletId`,
`walletName`, `copayerName`, per the TODO in `api.js` line 218). -/
def Credentials.exportCompressed (c : Credentials) : CompressedCred :=
  { network := c.network
    xPrivKey := c.xPrivKey
    xPubKey := c.xPubKey
    requestPrivKey := c.requestPrivKey
    personalEncryptingKey := c.personalEncryptingKey
    sharedEncryptingKey := c.sharedEncryptingKey
    walletPrivKey := c.walletPrivKey
    m := c.m
    n := c.n
    copayerId := c.copayerId
    publicKeyRing := c.publicKeyRing }

/-- `Credentials.importCompressed`.  Modelled from the spec: rebuilds a
credential set from the compressed form; the elided fields stay missing
("TODO: complete missing fields that live on the server only such as:
walletId, walletName, copayerName", `api.js` line 218). -/
def Credentials.importCompressed (c : CompressedCred) : Credentials :=
  { network := c.network
    xPrivKey := c.xPrivKey
    xPubKey := c.xPubKey
    requestPrivKey := c.requestPrivKey
    personalEncryptingKey := c.personalEncryptingKey
    sharedEncryptingKey := c.sharedEncryptingKey
    walletPrivKey := c.walletPrivKey
    walletId := none
    walletName := none
    m := c.m
    n := c.n
    copayerId := c.copayerId
    copayerName := none
    publicKeyRing := c.publicKeyRing }

/-- `API.prototype.export` (`api.js` 168-191): checks credentials are
present, takes a fresh copy of them (`Credentials.fromObj`), deletes
`xPrivKey` from the copy when `noSign`, serializes (compressed or full),
and encrypts the output when a password is given.  Returns the (unchanged)
state together with the produced document. -/
def API.exportWallet (st : APIState) (opts : ExportOpts) :
    APIState × Except ApiError ExportDoc :=
  match st.credentials with
  | none => (st, .error .preconditionFailed)
  | some creds =>
      let cred := if opts.noSign then { creds with xPrivKey := none } else creds
      let output : ExportDoc :=
        if opts.compressed then .compressed cred.exportCompressed else .full cred
      let output : ExportDoc :=
        match opts.password with
        | some pw => .encrypted pw output
        | none => output
      (st, .ok output)

/-- Deserialization step of `API.prototype.import` (`api.js` 214-224):
`Credentials.importCompressed` when `opts.compressed`, else
`Credentials.fromObj(JSON.parse(input))`; any failure is caught and becomes
`Error importing from source`. -/
def API.importParse (doc : ExportDoc) (compressed : Bool) :
    Except ApiError Credentials :=
  if compressed then
    match doc with
    | .compressed c => .ok (Credentials.importCompressed c)
    | _ => .error (.err "Error importing from source")
  else
    match doc with
    | .full c => .ok c
    | _ => .error (.err "Error importing from source")

/-- Decryption step of `API.prototype.import` (`api.js` 204-212): when a
password is given, the input is decrypted with `sjcl.decrypt` inside a `try`
whose `catch` block executes `throw ex` — re-throwing the raw sjcl
exception; the following `throw new Error('Incorrect password')` line is
unreachable dead code. -/
def API.importDecrypt (doc : ExportDoc) (password : Option String) :
    Except ApiError ExportDoc :=
  match password with
  | none => .ok doc
  | some pw =>
      match doc with
      | .encrypted pw2 inner => if pw2 = pw then .ok inner else .error .sjclError
      | _ => .error .sjclError

/-- `API.prototype.import` (`api.js` 201-226): decrypts when a password is
given (re-throwing the raw sjcl exception on failure, see
`API.importDecrypt`), deserializes (`API.importParse`), and only on full
success assigns the imported credentials to the state. -/
def API.importWallet (st : APIState) (doc : ExportDoc) (opts : ImportOpts) :
    APIState × Except ApiError Unit :=
  match API.importDecrypt doc opts.password with
  | .error e => (st, .error e)
  | .ok inner =>
      match API.importParse inner opts.compressed with
      | .error e => (st, .error e)
      | .ok credentials => ({ credentials := some credentials }, .ok ())

/-- `API.prototype.canSign` (`api.js` 359-361): credentials are present and
can sign. -/
def APIState.canSign (st : APIState) : Bool :=
  match st.credentials with
  | some c => c.canSign
  | none => false

/-- Result of `openWallet`: the resulting state, whether the server was
contacted, and the callback outcome (the flag saying whether the wallet was
just completed). -/
structure OpenWalletResult where
  state : APIState
  contactedServer : Bool
  outcome : Except ApiError Bool
deriving Repr, DecidableEq

/-- `API.prototype.openWallet` (`api.js` 369-401): returns `false` at once
when credentials are already complete; otherwise fetches the wallet
projection (`serverResp`), fails with `Wallet Incomplete` unless the
server-reported status is `complete`, runs `Verifier.checkCopayers` when the
wallet-level private key is held locally (failing with
`ServerCompromisedError` on mismatch) and merely logs a warning when it is
not, then merges the public key ring and, if wallet metadata is not yet
known, populates it from the copayer entry matching the local copayer id
(JavaScript throws a `TypeError` when no entry matches). -/
def API.openWallet (cp : CryptoProvider) (st : APIState)
    (serverResp : Except ApiError Wallet) : OpenWalletResult :=
  match st.credentials with
  | none => ⟨st, false, .error .preconditionFailed⟩
  | some creds =>
      if creds.isComplete then ⟨st, false, .ok false⟩
      else
        match serverResp with
        | .error e => ⟨st, true, .error e⟩
        | .ok wallet =>
            if wallet.status ≠ "complete" then
              ⟨st, true, .error (.err "Wallet Incomplete")⟩
            else if creds.walletPrivKey.isSome ∧
                ¬ Verifier.checkCopayers cp creds wallet.copayers then
              ⟨st, true, .error (.serverCompromised
                "Copayers in the wallet could not be verified to have known the wallet secret")⟩
            else
              let creds1 := creds.addPublicKeyRing (wallet.copayers.map (·.xPubKey))
              if creds1.hasWalletInfo then ⟨⟨some creds1⟩, true, .ok true⟩
              else
                match wallet.copayers.find? (fun cop => cop.id == creds1.copayerId) with
                | none => ⟨⟨some creds1⟩, true, .error (.err "TypeError")⟩
                | some me =>
                    ⟨⟨some (creds1.addWalletInfo cp wallet.id wallet.name
                        wallet.m wallet.n none me.name)⟩, true, .ok true⟩

/-- Result of `createWallet`: the resulting state, whether any server
request was issued, and the callback outcome (the invite secret, or null
when `n == 1`). -/
structure CreateWalletResult where
  state : APIState
  contactedServer : Bool
  outcome : Except ApiError (Option String)
deriving Repr, DecidableEq

/-- `API.prototype.createWallet` (`api.js` 414-454), continuation once
credentials exist: fails before any server interaction when the credentials'
network differs from the requested one, registers the wallet (`serverCreate`
is the server's response carrying the new wallet id), stores wallet info
locally, self-joins (`serverJoin`), and returns the invite secret only when
`n > 1`.  `walletPrivKey` supplies the randomness of
`new Bitcore.PrivateKey()`. -/
def API.createWalletSeeded (cp : CryptoProvider) (st1 : APIState)
    (creds : Credentials) (walletName copayerName : String) (m n : Nat)
    (network : String) (walletPrivKey : String)
    (serverCreate : Except ApiError String)
    (serverJoin : Except ApiError Wallet) : CreateWalletResult :=
  if network ≠ creds.network then
    ⟨st1, false, .error (.err "Existing keys were created for a different network")⟩
  else
    match serverCreate with
    | .error e => ⟨st1, true, .error e⟩
    | .ok walletId =>
        match serverJoin with
        | .error e =>
            ⟨⟨some (creds.addWalletInfo cp walletId walletName m n
              (some walletPrivKey) copayerName)⟩, true, .error e⟩
        | .ok _ =>
            ⟨⟨some (creds.addWalletInfo cp walletId walletName m n
              (some walletPrivKey) copayerName)⟩, true,
              .ok (if n > 1 then
                some (cp.toSecret walletId walletPrivKey network) else none)⟩

/-- Seeding step of `API.prototype.createWallet` (`api.js` 420-425): when no
credentials exist, generate fresh ones for the requested network
(`seedFromRandom`); otherwise keep the existing ones. -/
def API.createWalletSeedStep (st : APIState) (network : String)
    (seed : Credentials) : APIState × Credentials :=
  match st.credentials with
  | none => (⟨some (Credentials.create network seed)⟩, Credentials.create network seed)
  | some c => (st, c)

/-- `API.prototype.createWallet` (`api.js` 414-454), first half: validates
the network name, seeds fresh credentials when absent
(`API.createWalletSeedStep`), then continues with
`API.createWalletSeeded`. -/
def API.createWallet (cp : CryptoProvider) (st : APIState)
    (walletName copayerName : String) (m n : Nat) (network : Option String)
    (seed : Credentials) (walletPrivKey : String)
    (serverCreate : Except ApiError String)
    (serverJoin : Except ApiError Wallet) : CreateWalletResult :=
  if network.getD "livenet" ≠ "testnet" ∧ network.getD "livenet" ≠ "livenet" then
    ⟨st, false, .error (.err "Invalid network")⟩
  else
    API.createWalletSeeded cp
      (API.createWalletSeedStep st (network.getD "livenet") seed).1
      (API.createWalletSeedStep st (network.getD "livenet") seed).2
      walletName copayerName m n (network.getD "livenet") walletPrivKey
      serverCreate serverJoin

/-- The decrypted wallet status assembled by `getStatus`. -/
structure WalletStatus where
  wallet : Wallet
  secret : Option String
  pendingTxps : List Txp
deriving Repr, DecidableEq

/-- `API.prototype.getStatus` (`api.js` 529-542): fetches wallet and pending
proposals; when the wallet is still `pending`, recomputes and attaches the
invite secret; decrypts proposal messages in place before returning. -/
def API.getStatus (cp : CryptoProvider) (st : APIState)
    (serverResp : Except ApiError (Wallet × List Txp)) :
    Except ApiError WalletStatus :=
  match st.credentials with
  | none => .error .preconditionFailed
  | some creds =>
      match serverResp with
      | .error e => .error e
      | .ok (wallet, pendingTxps) =>
          let secret :=
            if wallet.status = "pending" then
              some (cp.toSecret (creds.walletId.getD "")
                (creds.walletPrivKey.getD "") creds.network)
            else none
          .ok ⟨wallet, secret, API.processTxps cp creds.sharedEncryptingKey pendingTxps⟩

/-- Options of `API.prototype.sendTxProposal` (`api.js` 553). -/
structure SendTxpOpts where
  toAddress : String
  amount : Int
  message : Option String
deriving Repr, DecidableEq

/-- The request body submitted by `sendTxProposal`. -/
structure TxpArgs where
  toAddress : String
  amount : Int
  message : Option String
  proposalSignature : String
deriving Repr, DecidableEq

/-- Construction of the request submitted by `API.prototype.sendTxProposal`
(`api.js` 560-566): encrypts the message under the shared encrypting key,
hashes (destination, amount, encrypted message) and signs the hash with the
request private key. -/
def API.sendTxProposalArgs (cp : CryptoProvider) (creds : Credentials)
    (opts : SendTxpOpts) : TxpArgs :=
  let message := API.encryptMessage cp opts.message creds.sharedEncryptingKey
  let hash := cp.getProposalHash opts.toAddress opts.amount message
  { toAddress := opts.toAddress
    amount := opts.amount
    message := message
    proposalSignature := cp.signMessage hash creds.requestPrivKey }

/-- `API.prototype.sendTxProposal` (`api.js` 553-573): requires complete
credentials, builds and submits the proposal request; `server` is the
server's response as a function of the submitted request body. -/
def API.sendTxProposal (cp : CryptoProvider) (st : APIState)
    (opts : SendTxpOpts) (server : TxpArgs → Except ApiError Txp) :
    Except ApiError Txp :=
  match st.credentials with
  | none => .error .preconditionFailed
  | some creds =>
      if ¬ creds.isComplete then .error .preconditionFailed
      else server (API.sendTxProposalArgs cp creds opts)

/-- Options of `API.prototype.getTxProposals` (`api.js` 643). -/
structure GetTxpOpts where
  doNotVerify : Bool
  forAirGapped : Bool
deriving Repr, DecidableEq

/-- Result of `getTxProposals`: either the processed proposal list, or the
air-gapped bundle (still-encrypted proposals plus the public key ring
re-encrypted under the personal key, and m/n). -/
inductive GetTxpResult where
  | plain (txps : List Txp)
  | airGapped (txps : List Txp) (encryptedPkr : String) (m n : Nat)
deriving Repr, DecidableEq

/-- `API.prototype.getTxProposals` (`api.js` 643-674): requires complete
credentials, decrypts the fetched proposals' messages in place, then — unless
`doNotVerify` — checks every proposal with `Verifier.checkTxProposal` and
fails the whole batch with `ServerCompromisedError` as soon as any proposal
is fake; on success returns either the plain list or the air-gapped bundle. -/
def API.getTxProposals (cp : CryptoProvider) (st : APIState)
    (opts : GetTxpOpts) (serverResp : Except ApiError (List Txp)) :
    Except ApiError GetTxpResult :=
  match st.credentials with
  | none => .error .preconditionFailed
  | some creds =>
      if ¬ creds.isComplete then .error .preconditionFailed
      else
        match serverResp with
        | .error e => .error e
        | .ok serverTxps =>
            let txps := API.processTxps cp creds.sharedEncryptingKey serverTxps
            let fake := txps.any (fun txp =>
              !opts.doNotVerify && !(Verifier.checkTxProposal cp creds txp))
            if fake then
              .error (.serverCompromised "Server sent fake transaction proposal")
            else if opts.forAirGapped then
              .ok (.airGapped txps
                (cp.encryptPkr creds.publicKeyRing creds.personalEncryptingKey)
                creds.m creds.n)
            else
              .ok (.plain txps)

/-- `API.prototype.getSignatures` (`api.js` 683-697): requires complete
credentials and a proposal with a creator id, fails when the credentials
cannot sign, fails with `ServerCompromisedError` when
`Verifier.checkTxProposal` rejects the proposal, and only then computes the
signatures. -/
def API.getSignatures (cp : CryptoProvider) (st : APIState) (txp : Txp) :
    Except ApiError (List String) :=
  match st.credentials with
  | none => .error .preconditionFailed
  | some creds =>
      if ¬ creds.isComplete then .error .preconditionFailed
      else if txp.creatorId = "" then .error .preconditionFailed
      else if ¬ creds.canSign then
        .error (.err "You do not have the required keys to sign transactions")
      else if ¬ Verifier.checkTxProposal cp creds txp then
        .error (.serverCompromised "Transaction proposal is invalid")
      else
        .ok (cp.signTxp txp (creds.xPrivKey.getD ""))

/-- `API.prototype.signTxProposal` (`api.js` 706-730): requires complete
credentials and a creator id; fails when the credentials cannot sign AND the
proposal does not already carry signatures (the air-gapped flow submits
pre-computed signatures); fails with `ServerCompromisedError` when
`Verifier.checkTxProposal` rejects the proposal; otherwise submits the
proposal's own signatures, or freshly computed ones, to the server. -/
def API.signTxProposal (cp : CryptoProvider) (st : APIState) (txp : Txp)
    (server : List String → Except ApiError Txp) : Except ApiError Txp :=
  match st.credentials with
  | none => .error .preconditionFailed
  | some creds =>
      if ¬ creds.isComplete then .error .preconditionFailed
      else if txp.creatorId = "" then .error .preconditionFailed
      else if ¬ creds.canSign ∧ txp.signatures = none then
        .error (.err "You do not have the required keys to sign transactions")
      else if ¬ Verifier.checkTxProposal cp creds txp then
        .error (.serverCompromised "Server sent fake transaction proposal")
      else
        let signatures :=
          match txp.signatures with
          | some sigs => sigs
          | none => cp.signTxp txp (creds.xPrivKey.getD "")
        server signatures

/-- `API.prototype.signTxProposalFromAirGapped` (`api.js` 741-768): requires
credentials that can sign, decrypts the transported key ring with the
personal encrypting key (failure is fatal), rejects a decrypted payload that
is not an array of length exactly `n` with `Invalid public key ring` —
before any mutation of the credentials —, then installs m/n/ring, verifies
the proposal and signs it.  The returned state reflects the mutation of
`this.credentials` performed before the verification step. -/
def API.signTxProposalFromAirGapped (cp : CryptoProvider) (st : APIState)
    (txp : Txp) (encryptedPkr : String) (m n : Nat) :
    APIState × Except ApiError (List String) :=
  match st.credentials with
  | none => (st, .error .preconditionFailed)
  | some creds =>
      if ¬ creds.canSign then
        (st, .error (.err "You do not have the required keys to sign transactions"))
      else
        match cp.decryptPkr encryptedPkr creds.personalEncryptingKey with
        | none => (st, .error (.err "Could not decrypt public key ring"))
        | some .notArray => (st, .error (.err "Invalid public key ring"))
        | some (.arr publicKeyRing) =>
            if publicKeyRing.length ≠ n then
              (st, .error (.err "Invalid public key ring"))
            else
              let creds2 := { creds with m := m, n := n }.addPublicKeyRing publicKeyRing
              let st2 : APIState := ⟨some creds2⟩
              if ¬ Verifier.checkTxProposal cp creds2 txp then
                (st2, .error (.err "Fake transaction proposal"))
              else
                (st2, .ok (cp.signTxp txp (creds2.xPrivKey.getD "")))

/-- `API.prototype.getTxHistory` (`api.js` 840-852): requires complete
credentials, decrypts the fetched transactions' messages in place and
returns them; decryption failures never abort the fetch. -/
def API.getTxHistory (cp : CryptoProvider) (st : APIState)
    (serverResp : Except ApiError (List Txp)) : Except ApiError (List Txp) :=
  match st.credentials with
  | none => .error .preconditionFailed
  | some creds =>
      if ¬ creds.isComplete then .error .preconditionFailed
      else
        match serverResp with
        | .error e => .error e
        | .ok txs => .ok (API.processTxps cp creds.sharedEncryptingKey txs)

/-! ## Concrete fixtures used by witnesses and counterexamples -/

/-- A concrete crypto provider whose signature verification always succeeds;
used to evaluate the embedding on concrete inputs. -/
def testCP : CryptoProvider where
  signMessage := fun msg key => "sig(" ++ msg ++ "," ++ key ++ ")"
  verifyMessage := fun _ _ _ => true
  encryptMessage := fun msg key => "enc(" ++ msg ++ "," ++ key ++ ")"
  decryptMessage := fun _ _ => none
  getProposalHash := fun addr amt msg => addr ++ "|" ++ toString amt ++ "|" ++ msg.getD ""
  toSecret := fun wid key net => "secret(" ++ wid ++ "," ++ key ++ "," ++ net ++ ")"
  signTxp := fun txp key => ["txsig(" ++ txp.id ++ "," ++ key ++ ")"]
  copayerIdFromXPub := fun x => "id-" ++ x
  requestPubKeyFromXPub := fun x => "reqpub-" ++ x
  privateKeyToAESKey := fun k => "aes-" ++ k
  privToPub := fun k => "pub-" ++ k
  encryptPkr := fun _ key => "encpkr(" ++ key ++ ")"
  decryptPkr := fun _ _ => none

/-- `testCP`, but proposal signatures equal to `badsig` fail verification. -/
def testCPbad : CryptoProvider :=
  { testCP with verifyMessage := fun _ sig _ => sig != "badsig" }

/-- `testCP`, but every signature verification fails. -/
def testCPreject : CryptoProvider :=
  { testCP with verifyMessage := fun _ _ _ => false }

/-- `testCP`, but the air-gapped key-ring payload decrypts to a two-entry
ring. -/
def testCPring2 : CryptoProvider :=
  { testCP with decryptPkr := fun _ _ => some (.arr ["xpubA", "xpubB"]) }

/-- A complete 1-of-1 credential set fixture. -/
def testCreds : Credentials where
  network := "testnet"
  xPrivKey := some "xpriv"
  xPubKey := "xpub1"
  requestPrivKey := "reqpriv"
  personalEncryptingKey := "perskey"
  sharedEncryptingKey := "sharedkey"
  walletPrivKey := some "wpriv"
  walletId := some "w1"
  walletName := some "wallet"
  m := 1
  n := 1
  copayerId := "id-xpub1"
  copayerName := some "alice"
  publicKeyRing := ["xpub1"]

/-- A second, distinct credential set fixture (pre-existing client state in
the import scenarios). -/
def testCreds2 : Credentials :=
  { testCreds with copayerName := some "bob", copayerId := "id-xpub2", xPubKey := "xpub2" }

/-- `testCreds` without the signing private key ("no-sign" credentials). -/
def noSignCreds : Credentials :=
  { testCreds with xPrivKey := none }

/-- An incomplete credential set fixture for the `openWallet` scenarios
(ring not yet populated, 2-of-2). -/
def openCreds : Credentials :=
  { testCreds with publicKeyRing := [], m := 2, n := 2 }

/-- A proposal fixture that verifies under `testCP` and `testCPbad`. -/
def goodTxp : Txp where
  id := "t1"
  creatorId := "id-xpub1"
  toAddress := "addr1"
  amount := 100
  message := some "ct1"
  encryptedMessage := none
  proposalSignature := "goodsig"
  signatures := none
  actions := []

/-- A proposal fixture whose proposal signature fails under `testCPbad`. -/
def badTxp : Txp :=
  { goodTxp with id := "t2", proposalSignature := "badsig" }

/-- `goodTxp` carrying pre-computed signatures (the air-gapped flow). -/
def sigTxp : Txp :=
  { goodTxp with signatures := some ["presig1"] }

/-- A server wallet projection fixture for `openWallet`. -/
def testWallet : Wallet where
  id := "w1"
  name := "wallet"
  m := 2
  n := 2
  status := "complete"
  copayers := [⟨"id-xpub1", "alice", "xpub1", "copsig1"⟩, ⟨"id-xpub2", "bob", "xpub2", "copsig2"⟩]

/-! ## Claim theorems -/

/-- C10: `export` never mutates the client's stored credentials: the state
after `export` equals the state before for every option combination; if the
client could sign before, it still can afterwards; and with `noSign` the
signing private key is removed only from the exported document. -/
theorem export_frame_preserving (st : APIState) (opts : ExportOpts) :
    (API.exportWallet st opts).1 = st ∧
    (st.canSign = true → (API.exportWallet st opts).1.canSign = true) ∧
    (∀ doc, opts.noSign = true → (API.exportWallet st opts).2 = .ok doc →
      doc.hasSigningKey = false) := by
  obtain ⟨cs⟩ := st
  cases cs with
  | none =>
      refine ⟨rfl, fun h => h, fun doc hns hok => ?_⟩
      simp [API.exportWallet] at hok
  | some c =>
      refine ⟨rfl, fun h => h, fun doc hns hok => ?_⟩
      cases hpw : opts.password <;>
        cases hcm : opts.compressed <;>
        · simp [API.exportWallet, hns, hpw, hcm] at hok
          subst hok
          simp [ExportDoc.hasSigningKey, Credentials.exportCompressed]

/-- C10 witness: a concrete `noSign` export leaves the state unchanged and
produces a document without the signing key. -/
theorem export_frame_preserving_witness :
    (API.exportWallet ⟨some testCreds⟩ ⟨false, none, true⟩).1 = ⟨some testCreds⟩ ∧
    ExportDoc.hasSigningKey (.full { testCreds with xPrivKey := none }) = false := by
  have h := export_frame_preserving ⟨some testCreds⟩ ⟨false, none, true⟩
  exact ⟨h.1, h.2.2 (.full { testCreds with xPrivKey := none }) rfl rfl⟩

/-- C8: the proposal signature submitted by `sendTxProposal` is a
deterministic function of the destination, amount, message, shared
encrypting key and request signing key alone: two requests built from inputs
agreeing on those produce the identical `proposalSignature`. -/
theorem sendTxProposal_signature_deterministic (cp : CryptoProvider)
    (c1 c2 : Credentials) (o1 o2 : SendTxpOpts)
    (haddr : o1.toAddress = o2.toAddress) (hamt : o1.amount = o2.amount)
    (hmsg : o1.message = o2.message)
    (henc : c1.sharedEncryptingKey = c2.sharedEncryptingKey)
    (hkey : c1.requestPrivKey = c2.requestPrivKey) :
    (API.sendTxProposalArgs cp c1 o1).proposalSignature =
      (API.sendTxProposalArgs cp c2 o2).proposalSignature := by
  simp [API.sendTxProposalArgs, haddr, hamt, hmsg, henc, hkey]

/-- C8 witness: two concrete calls with identical destination, amount,
message and keys (on otherwise different credential sets) produce the same
proposal signature. -/
theorem sendTxProposal_signature_deterministic_witness :
    (API.sendTxProposalArgs testCP testCreds ⟨"addr1", 5, some "hello"⟩).proposalSignature =
      (API.sendTxProposalArgs testCP
        { testCreds with copayerName := some "carol" }
        ⟨"addr1", 5, some "hello"⟩).proposalSignature :=
  sendTxProposal_signature_deterministic testCP testCreds
    { testCreds with copayerName := some "carol" }
    ⟨"addr1", 5, some "hello"⟩ ⟨"addr1", 5, some "hello"⟩ rfl rfl rfl rfl rfl

/-- C3: when the air-gapped key-ring payload decrypts to something that is
not an array of length exactly `n`, `signTxProposalFromAirGapped` fails with
`Invalid public key ring` and leaves the credential state (in particular its
`m`, `n` and public key ring) unmodified. -/
theorem signTxProposalFromAirGapped_invalid_ring (cp : CryptoProvider)
    (st : APIState) (creds : Credentials) (txp : Txp) (epkr : String) (m n : Nat)
    (hc : st.credentials = some creds) (hsign : creds.canSign = true) :
    (∀ ring, cp.decryptPkr epkr creds.personalEncryptingKey = some (.arr ring) →
      ring.length ≠ n →
      API.signTxProposalFromAirGapped cp st txp epkr m n =
        (st, .error (.err "Invalid public key ring"))) ∧
    (cp.decryptPkr epkr creds.personalEncryptingKey = some .notArray →
      API.signTxProposalFromAirGapped cp st txp epkr m n =
        (st, .error (.err "Invalid public key ring"))) := by
  obtain ⟨cs⟩ := st
  cases cs with
  | none => cases hc
  | some c =>
      obtain rfl : c = creds := by injection hc
      constructor
      · intro ring hdec hlen
        simp [API.signTxProposalFromAirGapped, hsign, hdec, hlen]
      · intro hdec
        simp [API.signTxProposalFromAirGapped, hsign, hdec]

/-- C3 witness: a concrete payload decrypting to a two-entry ring with
`n = 3` fails with `Invalid public key ring` and the state is unchanged. -/
theorem signTxProposalFromAirGapped_invalid_ring_witness :
    API.signTxProposalFromAirGapped testCPring2 ⟨some testCreds⟩ goodTxp "epkr" 2 3 =
      (⟨some testCreds⟩, .error (.err "Invalid public key ring")) :=
  (signTxProposalFromAirGapped_invalid_ring testCPring2 ⟨some testCreds⟩ testCreds
    goodTxp "epkr" 2 3 rfl rfl).1 ["xpubA", "xpubB"] rfl (by decide)

/-- C4: evaluating `import` at a password-protected export and a wrong
password.  The call fails and leaves the pre-existing credential state
untouched, but the surfaced error is the raw re-thrown `sjcl.decrypt`
exception, not an `Incorrect password` error: in the `catch` block of
`api.js` lines 206-211 the statement `throw ex` precedes
`throw new Error('Incorrect password')`, making the latter unreachable. -/
theorem import_wrong_password_rethrows_sjcl :
    (API.exportWallet ⟨some testCreds⟩ ⟨false, some "hunter2", false⟩).2 =
      .ok (.encrypted "hunter2" (.full testCreds)) ∧
    API.importWallet ⟨some testCreds2⟩ (.encrypted "hunter2" (.full testCreds))
        ⟨false, some "wrong"⟩ = (⟨some testCreds2⟩, .error .sjclError) ∧
    ApiError.sjclError ≠ ApiError.err "Incorrect password" ∧
    (∀ st doc opts st2 e, API.importWallet st doc opts = (st2, .error e) → st2 = st) := by
  refine ⟨rfl, by decide, by decide, ?_⟩
  intro st doc opts st2 e h
  unfold API.importWallet at h
  split at h
  · injection h with h1 h2
    exact h1.symm
  · split at h
    · injection h with h1 h2
      exact h1.symm
    · injection h with h1 h2
      exact Except.noConfusion h2

/-- C5 counterexample: a compressed export of credentials that carry wallet
metadata does not round-trip to an equivalent credential set — the
`walletId`, `walletName` and `copayerName` fields are elided (`api.js` line
218's TODO) — refuting the claim for `compressed := true` even with
`noSign := false`. -/
theorem compressed_roundtrip_not_equivalent :
    (API.exportWallet ⟨some testCreds⟩ ⟨true, none, false⟩).2 =
      .ok (.compressed testCreds.exportCompressed) ∧
    (API.importWallet ⟨none⟩ (.compressed testCreds.exportCompressed)
        ⟨true, none⟩).1.credentials ≠ some testCreds := by
  exact ⟨rfl, by decide⟩

/-- The credential set reconstructed by `import ∘ export`, stated from the
claim's words and amended: the signing key is absent exactly when `noSign`
was set, and with `compressed` the server-side fields (`walletId`,
`walletName`, `copayerName`) are additionally elided. -/
def exportRoundtripView (c : Credentials) (opts : ExportOpts) : Credentials :=
  let c1 := if opts.noSign then { c with xPrivKey := none } else c
  if opts.compressed then
    { c1 with walletId := none, walletName := none, copayerName := none }
  else c1

/-- C5 (amended): for every credential set and every option combination,
`import(export(opts), opts)` succeeds and reconstructs exactly
`exportRoundtripView`: the original credential set, minus the signing key
when `noSign` was set, and minus the elided server-side fields when
`compressed` was set. -/
theorem import_export_roundtrip (c : Credentials) (opts : ExportOpts)
    (st2 : APIState) :
    ∃ doc, (API.exportWallet ⟨some c⟩ opts).2 = .ok doc ∧
      API.importWallet st2 doc ⟨opts.compressed, opts.password⟩ =
        (⟨some (exportRoundtripView c opts)⟩, .ok ()) := by
  obtain ⟨cm, pw, ns⟩ := opts
  cases pw <;> cases cm <;> cases ns <;>
    · refine ⟨_, rfl, ?_⟩
      simp [API.importWallet, API.importDecrypt, API.importParse,
        exportRoundtripView, Credentials.importCompressed,
        Credentials.exportCompressed]

/-- C1: over a fetched batch in which exactly one (processed) proposal fails
`Verifier.checkTxProposal`, `getTxProposals` with verification enabled
rejects the whole batch with `ServerCompromisedError` and returns no
proposals, while with `doNotVerify` the batch is returned unverified. -/
theorem getTxProposals_fail_closed (cp : CryptoProvider) (st : APIState)
    (creds : Credentials) (serverTxps : List Txp) (opts : GetTxpOpts)
    (hc : st.credentials = some creds) (hcomp : creds.isComplete = true)
    (hone : ((API.processTxps cp creds.sharedEncryptingKey serverTxps).filter
        (fun t => !(Verifier.checkTxProposal cp creds t))).length = 1) :
    (opts.doNotVerify = false →
      API.getTxProposals cp st opts (.ok serverTxps) =
        .error (.serverCompromised "Server sent fake transaction proposal")) ∧
    (opts.doNotVerify = true → opts.forAirGapped = false →
      API.getTxProposals cp st opts (.ok serverTxps) =
        .ok (.plain (API.processTxps cp creds.sharedEncryptingKey serverTxps))) := by
  have hst : st = ⟨some creds⟩ := by rw [← hc]
  subst hst
  have hmem : ∃ t ∈ API.processTxps cp creds.sharedEncryptingKey serverTxps,
      Verifier.checkTxProposal cp creds t = false := by
    have hpos : 0 < ((API.processTxps cp creds.sharedEncryptingKey serverTxps).filter
        (fun t => !(Verifier.checkTxProposal cp creds t))).length := by omega
    obtain ⟨t, ht⟩ := List.exists_mem_of_length_pos hpos
    rw [List.mem_filter] at ht
    exact ⟨t, ht.1, by simpa using ht.2⟩
  constructor
  · intro hdnv
    have hany : (API.processTxps cp creds.sharedEncryptingKey serverTxps).any
        (fun txp => !opts.doNotVerify && !(Verifier.checkTxProposal cp creds txp)) = true := by
      obtain ⟨t, htm, htf⟩ := hmem
      exact List.any_eq_true.mpr ⟨t, htm, by simp [hdnv, htf]⟩
    simp [API.getTxProposals, hcomp, hany]
  · intro hdnv hag
    have hany : (API.processTxps cp creds.sharedEncryptingKey serverTxps).any
        (fun txp => !opts.doNotVerify && !(Verifier.checkTxProposal cp creds txp)) = false := by
      simp [hdnv]
    simp [API.getTxProposals, hcomp, hany, hag]

/-- C1 witness: a concrete two-proposal batch with exactly one fake proposal
is rejected as a whole with `ServerCompromisedError` when verification is
enabled, and returned (decrypted) when `doNotVerify` is set. -/
theorem getTxProposals_fail_closed_witness :
    API.getTxProposals testCPbad ⟨some testCreds⟩ ⟨false, false⟩ (.ok [goodTxp, badTxp]) =
      .error (.serverCompromised "Server sent fake transaction proposal") ∧
    API.getTxProposals testCPbad ⟨some testCreds⟩ ⟨true, false⟩ (.ok [goodTxp, badTxp]) =
      .ok (.plain (API.processTxps testCPbad testCreds.sharedEncryptingKey [goodTxp, badTxp])) := by
  have h1 := getTxProposals_fail_closed testCPbad ⟨some testCreds⟩ testCreds
    [goodTxp, badTxp] ⟨false, false⟩ rfl rfl (by decide)
  have h2 := getTxProposals_fail_closed testCPbad ⟨some testCreds⟩ testCreds
    [goodTxp, badTxp] ⟨true, false⟩ rfl rfl (by decide)
  exact ⟨h1.1 rfl, h2.2 rfl rfl⟩

/-- C2 counterexample: with a credential set that cannot sign
(`canSign() = false`), `signTxProposal` of a proposal that already carries
signatures does NOT fail: the guard at `api.js` line 712 is
`!self.canSign() && !txp.signatures`, so the pre-computed signatures are
submitted and the call succeeds — refuting the claim that both calls fail
whenever signing capability is absent. -/
theorem signTxProposal_succeeds_without_canSign :
    noSignCreds.canSign = false ∧
    API.signTxProposal testCP ⟨some noSignCreds⟩ sigTxp (fun _ => .ok goodTxp) =
      .ok goodTxp := by
  exact ⟨rfl, rfl⟩

/-- C2 (amended): `getSignatures` fails whenever signing capability is
absent; `signTxProposal` fails for absent signing capability only when the
proposal carries no pre-computed signatures (the air-gapped flow submits
those without local signing capability); once past the capability guard,
both fail with `ServerCompromisedError` — without computing or submitting
anything, for any server — when `Verifier.checkTxProposal` rejects the
proposal; and signatures are produced/submitted only for proposals that pass
verification. -/
theorem sign_requires_capability_and_verification (cp : CryptoProvider)
    (st : APIState) (creds : Credentials) (txp : Txp)
    (hc : st.credentials = some creds) (hcomp : creds.isComplete = true)
    (hcid : txp.creatorId ≠ "") :
    (creds.canSign = false →
      API.getSignatures cp st txp =
        .error (.err "You do not have the required keys to sign transactions")) ∧
    (creds.canSign = false → txp.signatures = none →
      ∀ server, API.signTxProposal cp st txp server =
        .error (.err "You do not have the required keys to sign transactions")) ∧
    (Verifier.checkTxProposal cp creds txp = false →
      (creds.canSign = true →
        API.getSignatures cp st txp =
          .error (.serverCompromised "Transaction proposal is invalid")) ∧
      (creds.canSign = true ∨ txp.signatures ≠ none →
        ∀ server, API.signTxProposal cp st txp server =
          .error (.serverCompromised "Server sent fake transaction proposal"))) ∧
    (∀ sigs, API.getSignatures cp st txp = .ok sigs →
      Verifier.checkTxProposal cp creds txp = true) ∧
    (∀ server r, API.signTxProposal cp st txp server = .ok r →
      Verifier.checkTxProposal cp creds txp = true) := by
  have hst : st = ⟨some creds⟩ := by rw [← hc]
  subst hst
  refine ⟨?_, ?_, ?_, ?_, ?_⟩
  · intro hcs
    simp [API.getSignatures, hcomp, hcid, hcs]
  · intro hcs hsig server
    simp [API.signTxProposal, hcomp, hcid, hcs, hsig]
  · intro hchk
    constructor
    · intro hcs
      simp [API.getSignatures, hcomp, hcid, hcs, hchk]
    · intro hguard server
      have hg : ¬ (creds.canSign = false ∧ txp.signatures = none) := by
        rcases hguard with h | h
        · simp [h]
        · simp [h]
      simp [API.signTxProposal, hcomp, hcid, hchk]
      intro hcs
      rcases hguard with h | h
      · exact absurd hcs (by simp [h])
      · exact h
  · intro sigs hok
    by_contra hchk
    rw [Bool.not_eq_true] at hchk
    by_cases hcs : creds.canSign = true <;>
      simp [API.getSignatures, hcomp, hcid, hcs, hchk] at hok
  · intro server r hok
    by_contra hchk
    rw [Bool.not_eq_true] at hchk
    by_cases hg : creds.canSign = false ∧ txp.signatures = none <;>
      simp [API.signTxProposal, hcomp, hcid, hg, hchk] at hok

/-- C2 witness: with concrete no-sign credentials, `getSignatures` fails
with the missing-keys error, and with a concrete rejected proposal both
calls fail with `ServerCompromisedError`. -/
theorem sign_requires_capability_and_verification_witness :
    API.getSignatures testCP ⟨some noSignCreds⟩ goodTxp =
      .error (.err "You do not have the required keys to sign transactions") ∧
    API.getSignatures testCPreject ⟨some testCreds⟩ goodTxp =
      .error (.serverCompromised "Transaction proposal is invalid") ∧
    API.signTxProposal testCPreject ⟨some testCreds⟩ goodTxp (fun _ => .ok goodTxp) =
      .error (.serverCompromised "Server sent fake transaction proposal") := by
  have h1 := sign_requires_capability_and_verification testCP ⟨some noSignCreds⟩
    noSignCreds goodTxp rfl rfl (by decide)
  have h2 := sign_requires_capability_and_verification testCPreject ⟨some testCreds⟩
    testCreds goodTxp rfl rfl (by decide)
  exact ⟨h1.1 rfl, (h2.2.2.1 (by decide)).1 rfl,
    (h2.2.2.1 (by decide)).2 (Or.inl rfl) (fun _ => .ok goodTxp)⟩

/-- Helper: a successful outcome of `API.createWalletSeeded` carries a
secret exactly when `n > 1`. -/
theorem createWalletSeeded_ok_isSome {cp : CryptoProvider} {st1 : APIState}
    {creds : Credentials} {walletName copayerName : String} {m n : Nat}
    {network walletPrivKey : String} {serverCreate : Except ApiError String}
    {serverJoin : Except ApiError Wallet} (v : Option String)
    (hok : (API.createWalletSeeded cp st1 creds walletName copayerName m n
      network walletPrivKey serverCreate serverJoin).outcome = .ok v) :
    v.isSome ↔ n > 1 := by
  unfold API.createWalletSeeded at hok
  split at hok
  · cases hok
  · split at hok
    · cases hok
    · split at hok
      · cases hok
      · injection hok with hv
        subst hv
        by_cases hn : n > 1 <;> simp [hn]

/-- C6: every successful `createWallet` call returns a non-null invite
secret exactly when `n > 1` (and null when `n == 1`); and when credentials
already exist whose network differs from the requested one, the call fails
with an error before any server interaction. -/
theorem createWallet_secret_iff_multisig (cp : CryptoProvider) (st : APIState)
    (walletName copayerName : String) (m n : Nat) (network : Option String)
    (seed : Credentials) (walletPrivKey : String)
    (serverCreate : Except ApiError String) (serverJoin : Except ApiError Wallet) :
    (∀ v, (API.createWallet cp st walletName copayerName m n network seed
        walletPrivKey serverCreate serverJoin).outcome = .ok v →
      (v.isSome ↔ n > 1)) ∧
    (∀ c, st.credentials = some c → c.network ≠ network.getD "livenet" →
      (API.createWallet cp st walletName copayerName m n network seed
          walletPrivKey serverCreate serverJoin).contactedServer = false ∧
      ∃ e, (API.createWallet cp st walletName copayerName m n network seed
          walletPrivKey serverCreate serverJoin).outcome = .error e) := by
  constructor
  · intro v hok
    unfold API.createWallet at hok
    split at hok
    · cases hok
    · exact createWalletSeeded_ok_isSome v hok
  · intro c hcred hnet
    have hstep : API.createWalletSeedStep st (network.getD "livenet") seed = (st, c) := by
      unfold API.createWalletSeedStep
      rw [hcred]
    unfold API.createWallet
    split
    · exact ⟨rfl, _, rfl⟩
    · rw [hstep]
      unfold API.createWalletSeeded
      rw [if_pos (fun h => hnet h.symm)]
      exact ⟨rfl, _, rfl⟩

/-- C6 witness: a concrete successful 2-of-3 creation returns a non-null
secret, and a concrete call on livenet credentials requesting testnet fails
without contacting the server. -/
theorem createWallet_secret_iff_multisig_witness :
    ((API.createWallet testCP ⟨none⟩ "fam" "alice" 2 3 (some "testnet") testCreds
        "wpk" (.ok "w9") (.ok testWallet)).outcome = .ok (some
          (testCP.toSecret "w9" "wpk" "testnet")) →
      ((some (testCP.toSecret "w9" "wpk" "testnet")).isSome ↔ 3 > 1)) ∧
    (API.createWallet testCP ⟨some { testCreds with network := "livenet" }⟩
        "fam" "alice" 1 1 (some "testnet") testCreds "wpk" (.ok "w9")
        (.ok testWallet)).contactedServer = false := by
  have h := createWallet_secret_iff_multisig testCP ⟨none⟩ "fam" "alice" 2 3
    (some "testnet") testCreds "wpk" (.ok "w9") (.ok testWallet)
  have h2 := createWallet_secret_iff_multisig testCP
    ⟨some { testCreds with network := "livenet" }⟩ "fam" "alice" 1 1
    (some "testnet") testCreds "wpk" (.ok "w9") (.ok testWallet)
  exact ⟨h.1 (some (testCP.toSecret "w9" "wpk" "testnet")),
    (h2.2 { testCreds with network := "livenet" } rfl (by decide)).1⟩

/-- C7: `openWallet` returns `false` without contacting the server when the
credentials are already complete; fails with `Wallet Incomplete` (completing
nothing) whenever the server-reported status is not `complete`; fails with a
`ServerCompromisedError` and mutates nothing when the wallet-level private
key is held and `Verifier.checkCopayers` rejects the server's copayer list;
never raises a trust violation when the wallet-level key is absent (the
check is skipped); and returns `true` only on a server response whose status
is `complete`. -/
theorem openWallet_trust_and_completion (cp : CryptoProvider) (st : APIState)
    (creds : Credentials) (resp : Except ApiError Wallet)
    (hc : st.credentials = some creds) :
    (creds.isComplete = true → API.openWallet cp st resp = ⟨st, false, .ok false⟩) ∧
    (∀ w, resp = .ok w → creds.isComplete = false → w.status ≠ "complete" →
      API.openWallet cp st resp = ⟨st, true, .error (.err "Wallet Incomplete")⟩) ∧
    (∀ w, resp = .ok w → creds.isComplete = false → w.status = "complete" →
      creds.walletPrivKey.isSome = true →
      Verifier.checkCopayers cp creds w.copayers = false →
      API.openWallet cp st resp = ⟨st, true, .error (.serverCompromised
        "Copayers in the wallet could not be verified to have known the wallet secret")⟩) ∧
    (creds.walletPrivKey = none → ∀ w, resp = .ok w → ∀ msg,
      (API.openWallet cp st resp).outcome ≠ .error (.serverCompromised msg)) ∧
    (∀ b, (API.openWallet cp st resp).outcome = .ok b → b = true →
      ∃ w, resp = .ok w ∧ w.status = "complete") := by
  have hst : st = ⟨some creds⟩ := by rw [← hc]
  subst hst
  refine ⟨?_, ?_, ?_, ?_, ?_⟩
  · intro hic
    simp [API.openWallet, hic]
  · intro w hw hic hstat
    subst hw
    simp [API.openWallet, hic, hstat]
  · intro w hw hic hstat hpk hchk
    subst hw
    simp [API.openWallet, hic, hstat, hpk, hchk]
  · intro hpk w hw msg
    subst hw
    by_cases hic : creds.isComplete = true
    · simp [API.openWallet, hic]
    · by_cases hstat : w.status = "complete"
      · by_cases hinfo :
            (creds.addPublicKeyRing (w.copayers.map (·.xPubKey))).hasWalletInfo = true
        · simp [API.openWallet, hic, hstat, hpk, hinfo]
        · cases hfind : w.copayers.find?
              (fun cop => cop.id == (creds.addPublicKeyRing
                (w.copayers.map (·.xPubKey))).copayerId) <;>
            simp [API.openWallet, hic, hstat, hpk, hinfo, hfind]
      · simp [API.openWallet, hic, hstat]
  · intro b hok hb
    subst hb
    cases resp with
    | error e =>
        by_cases hic : creds.isComplete = true <;>
          simp [API.openWallet, hic] at hok
    | ok w =>
        refine ⟨w, rfl, ?_⟩
        by_cases hic : creds.isComplete = true
        · simp [API.openWallet, hic] at hok
        · by_cases hstat : w.status = "complete"
          · exact hstat
          · simp [API.openWallet, hic, hstat] at hok

/-- C7 witness: on concrete incomplete credentials holding the wallet-level
key, a server response whose copayer list fails verification is rejected
with `ServerCompromisedError` and the state is unchanged; and concrete
complete credentials return `false` without server contact. -/
theorem openWallet_trust_and_completion_witness :
    API.openWallet testCPreject ⟨some openCreds⟩ (.ok testWallet) =
      ⟨⟨some openCreds⟩, true, .error (.serverCompromised
        "Copayers in the wallet could not be verified to have known the wallet secret")⟩ ∧
    API.openWallet testCP ⟨some testCreds⟩ (.ok testWallet) =
      ⟨⟨some testCreds⟩, false, .ok false⟩ := by
  have h1 := openWallet_trust_and_completion testCPreject ⟨some openCreds⟩
    openCreds (.ok testWallet) rfl
  have h2 := openWallet_trust_and_completion testCP ⟨some testCreds⟩
    testCreds (.ok testWallet) rfl
  exact ⟨h1.2.2.1 testWallet rfl (by decide) (by decide) (by decide) (by decide),
    h2.1 (by decide)⟩

/-- C9: proposal-message decryption degrades gracefully.  A missing (null or
empty) message decrypts to the empty string; an undecryptable message is
replaced in place by the `<ECANNOTDECRYPT>` placeholder; `getTxHistory` and
`getStatus` return their processed results normally for every server payload
(never aborting on decryption failure); and the batch-verification decision
of `getTxProposals` (`Verifier.checkTxProposal` on the processed proposal)
does not depend on the decryption outcome at all — it is computed from the
preserved wire form. -/
theorem decryption_degrades_gracefully (cp : CryptoProvider) (key : String)
    (creds : Credentials) (txp : Txp) :
    (API.decryptMessage cp none key = "" ∧ API.decryptMessage cp (some "") key = "") ∧
    (∀ s, s ≠ "" → cp.decryptMessage s key = none →
      API.decryptMessage cp (some s) key = "<ECANNOTDECRYPT>" ∧
      (API.processTxp cp key { txp with message := some s }).message =
        some "<ECANNOTDECRYPT>") ∧
    (∀ st c txs, st.credentials = some c → c.isComplete = true →
      API.getTxHistory cp st (.ok txs) =
        .ok (API.processTxps cp c.sharedEncryptingKey txs)) ∧
    (∀ st c w txs, st.credentials = some c →
      ∃ r, API.getStatus cp st (.ok (w, txs)) = .ok r ∧
        r.pendingTxps = API.processTxps cp c.sharedEncryptingKey txs) ∧
    (∀ cp2 : CryptoProvider, cp2.verifyMessage = cp.verifyMessage →
      cp2.copayerIdFromXPub = cp.copayerIdFromXPub →
      cp2.requestPubKeyFromXPub = cp.requestPubKeyFromXPub →
      cp2.getProposalHash = cp.getProposalHash →
      Verifier.checkTxProposal cp2 creds (API.processTxp cp2 key txp) =
        Verifier.checkTxProposal cp creds (API.processTxp cp key txp)) := by
  refine ⟨⟨rfl, by simp [API.decryptMessage]⟩, ?_, ?_, ?_, ?_⟩
  · intro s hs hdec
    constructor
    · simp [API.decryptMessage, hs, hdec]
    · simp [API.processTxp, API.decryptMessage, hs, hdec]
  · intro st c txs hcred hcomp
    have hst : st = ⟨some c⟩ := by rw [← hcred]
    subst hst
    simp [API.getTxHistory, hcomp]
  · intro st c w txs hcred
    have hst : st = ⟨some c⟩ := by rw [← hcred]
    subst hst
    exact ⟨_, rfl, rfl⟩
  · intro cp2 hv hcid hrq hgh
    simp only [Verifier.checkTxProposal, API.processTxp, hv, hcid, hrq, hgh]
    cases hmsg : txp.message with
    | none => simp [API.decryptMessage, jsOrStr]
    | some s =>
        by_cases hs : s = ""
        · subst hs
          simp [API.decryptMessage, jsOrStr]
        · simp [API.decryptMessage, jsOrStr, hs]

/-- C9 witness: under a concrete provider whose decryption always fails, an
undecryptable message is replaced by the placeholder and `getTxHistory`
still returns the processed batch. -/
theorem decryption_degrades_gracefully_witness :
    API.decryptMessage testCP (some "ct1") "sharedkey" = "<ECANNOTDECRYPT>" ∧
    API.getTxHistory testCP ⟨some testCreds⟩ (.ok [goodTxp]) =
      .ok (API.processTxps testCP testCreds.sharedEncryptingKey [goodTxp]) := by
  have h := decryption_degrades_gracefully testCP "sharedkey" testCreds goodTxp
  exact ⟨(h.2.1 "ct1" (by decide) rfl).1,
    h.2.2.1 ⟨some testCreds⟩ testCreds [goodTxp] rfl rfl⟩
